import Mathlib

/-!
Shallow embedding of the Tomorrow.io weather client
(`libs/tomorrow_io_client/src/tomorrow_io_client/client.py`), centered on
`get_tmrw_weather_tool` and its inner `summarize_period` closure.

Modelling conventions:
* Upstream JSON bodies are modelled by the inductive `Json`; numbers are exact
  rationals (the Python code only ever adds, divides and `round`s small exact
  values, so `ℚ` matches float behaviour on every input used here).
* Python exceptions that the source code does NOT catch are surfaced as
  `Except.error (e : PyError)`; exceptions that the code catches and converts
  into returned data stay inside `Except.ok`.
* `datetime.fromisoformat(entry["time"]).astimezone(timezone.utc)
  .astimezone(local_tz)` is abstracted by an environment `Env` carrying
  `parseLocal : String → Option (ℤ × ℕ)` — the observation's local calendar
  date (as an abstract day index) and local hour, or `none` when
  `fromisoformat` raises `ValueError` — together with `today : ℤ`, the value of
  `datetime.now(local_tz).date()`.
* The single `requests.get` call is abstracted by `http : String → HttpOutcome`
  applied to the sanitized location (the only request datum the claims touch);
  `HttpOutcome.exn msg` covers every `requests.RequestException` (non-2xx via
  `raise_for_status`, connection/timeout failures, and the JSON-decode error
  raised by `response.json()`, which subclasses `RequestException` in the
  pinned requests version), and `HttpOutcome.body data` is a parsed 2xx body.
-/

namespace TomorrowIo

/-- JSON values as produced by `response.json()`. -/
inductive Json where
  | null
  | bool (b : Bool)
  | num (q : ℚ)
  | str (s : String)
  | arr (elems : List Json)
  | obj (fields : List (String × Json))

/-- Python exceptions that escape `get_tmrw_weather_tool` uncaught.
`except requests.RequestException` and the inner
`except (ValueError, KeyError, TypeError)` never catch these. -/
inductive PyError where
  | attributeError
  | typeError
deriving DecidableEq

/-- `dict.get(key, default)` without the default: last binding wins, as in a
Python dict built from JSON. -/
def jsonGet? (fields : List (String × Json)) (key : String) : Option Json :=
  fields.foldl (fun acc kv => if kv.1 = key then some kv.2 else acc) none

/-- Python truthiness of a JSON value, for `if not hours:`. -/
def jsonTruthy : Json → Bool
  | .null => false
  | .bool b => b
  | .num q => decide (q ≠ 0)
  | .str s => decide (s ≠ "")
  | .arr elems => !elems.isEmpty
  | .obj fields => !fields.isEmpty

/-- A JSON value used as a Python number by `sum` (bools count as 0/1; any
other non-number raises `TypeError`, signalled by `none`). -/
def asPyNumber : Json → Option ℚ
  | .num q => some q
  | .bool b => some (if b then 1 else 0)
  | _ => none

/-- `sum(xs)` over appended JSON values; `none` models the `TypeError` Python
raises when a non-numeric value was appended. -/
def pySum? : List Json → Option ℚ
  | [] => some 0
  | v :: rest =>
    match asPyNumber v, pySum? rest with
    | some q, some s => some (q + s)
    | _, _ => none

/-- `⌊q⌋` computed by floor division of numerator by denominator. -/
def ratFloor (q : ℚ) : ℤ :=
  Int.fdiv q.num (q.den : ℤ)

/-- Python 3 `round(x)`: round half to even (banker's rounding). -/
def pyRound (q : ℚ) : ℤ :=
  let f := ratFloor q
  let frac := q - (f : ℚ)
  if frac < 1/2 then f
  else if 1/2 < frac then f + 1
  else if f % 2 = 0 then f else f + 1

/-- The local-time abstraction: `parseLocal` is
`fromisoformat(·).astimezone(utc).astimezone(local_tz)` reduced to the local
(date, hour) pair the code inspects (`none` = `ValueError`), and `today` is
`datetime.now(local_tz).date()`. -/
structure Env where
  parseLocal : String → Option (ℤ × ℕ)
  today : ℤ

/-- Outcome of the one `requests.get` call, keyed by the sanitized location
query parameter. -/
inductive HttpOutcome where
  | exn (msg : String)
  | body (data : Json)

/-- The dict returned by `get_tmrw_weather_tool`. The success branch carries
no `error_message` key and the error branches carry `forecast: None`; both
shapes are represented uniformly with `Option` fields. -/
structure ToolResult where
  status : String
  forecast : Option String
  location : String
  error_message : Option String
deriving DecidableEq

deriving instance DecidableEq for Except

/-- Membership test `h in range(lo, hi)` for the window bounds. -/
def inRange (lo hi h : ℕ) : Bool :=
  lo ≤ h && h < hi

/-- A character kept by `re.sub(r"[^a-zA-Z0-9\s,'-.]", "", location)`.
Note `'-.` inside the class is the character RANGE U+0027–U+002E
(`' ( ) * + , - .`), and `\s` matches whitespace (modelled here as the ASCII
whitespace characters; the claims involve no non-ASCII whitespace). -/
def sanitizeKeep (c : Char) : Bool :=
  (97 ≤ c.toNat && c.toNat ≤ 122) ||
  (65 ≤ c.toNat && c.toNat ≤ 90) ||
  (48 ≤ c.toNat && c.toNat ≤ 57) ||
  (c == ' ' || c == '\t' || c == '\n' || c == '\r' || c.toNat == 11 || c.toNat == 12) ||
  (c == ',') ||
  (39 ≤ c.toNat && c.toNat ≤ 46)

/-- `sanitized_location = re.sub(r"[^a-zA-Z0-9\s,'-.]", "", location)`. -/
def sanitize_location (location : String) : String :=
  String.mk (location.toList.filter sanitizeKeep)

/-- One pass of the `for entry in hourly_data` loop head, covering the body of
the `try`: `entry["time"]` (KeyError/TypeError on non-dicts or missing key),
`fromisoformat` (`ValueError`, or `TypeError` on a non-string), the timezone
conversions, and `values = entry.get("values", {})`. `none` means one of the
caught exceptions fired and the loop does `continue`. -/
def entryLocalTime? (env : Env) (entry : Json) : Option ((ℤ × ℕ) × Json) :=
  match entry with
  | .obj kvs =>
    match jsonGet? kvs "time" with
    | some (.str s) =>
      match env.parseLocal s with
      | some dh => some (dh, (jsonGet? kvs "values").getD (.obj []))
      | none => none
    | _ => none
  | _ => none

/-- The filtering/accumulation loop of `summarize_period`: for each entry that
parses, is dated today, and falls in `range(lo, hi)`, append
`values.get("temperature", 0)`, `values.get("precipitationProbability", 0)`
and `values.get("cloudCover", 0)`. A non-dict `values` reaching the window
branch raises `AttributeError` at `values.get` — outside the `try`, hence
uncaught. -/
def collectObs (env : Env) (lo hi : ℕ) : List Json → Except PyError (List (Json × Json × Json))
  | [] => .ok []
  | entry :: rest =>
    match entryLocalTime? env entry with
    | none => collectObs env lo hi rest
    | some ((d, h), values) =>
      if d ≠ env.today then collectObs env lo hi rest
      else if inRange lo hi h then
        match values with
        | .obj kvs =>
          match collectObs env lo hi rest with
          | .ok tl =>
            .ok ((((jsonGet? kvs "temperature").getD (.num 0)),
                  (((jsonGet? kvs "precipitationProbability").getD (.num 0)),
                   ((jsonGet? kvs "cloudCover").getD (.num 0)))) :: tl)
          | .error e => .error e
        | _ => .error .attributeError
      else collectObs env lo hi rest

/-- `f"Avg {avg_temp}F, {avg_prec}% rain chance, {cloud_desc}"`. -/
def periodLine (avg_temp avg_prec : ℤ) (cloud_desc : String) : String :=
  s!"Avg {avg_temp}F, {avg_prec}% rain chance, {cloud_desc}"

/-- The `if avg_cloud < 20 / elif avg_cloud < 50 / else` descriptor. -/
def cloudDesc (avg_cloud : ℤ) : String :=
  if avg_cloud < 20 then "sunny"
  else if avg_cloud < 50 then "partly cloudy"
  else "cloudy"

/-- `for entry in hourly_data`: Python iterates lists elementwise, strings by
character, dicts by key, and raises `TypeError` on non-iterables. -/
def pyIter? : Json → Except PyError (List Json)
  | .arr elems => .ok elems
  | .str s => .ok (s.toList.map fun c => .str (String.mk [c]))
  | .obj fields => .ok (fields.map fun kv => .str kv.1)
  | _ => .error .typeError

/-- The inner closure `summarize_period(hourly_data, hour_range)` of
`get_tmrw_weather_tool`; `env` stands for the captured `local_tz` /
`today_local`. `Except.error` is an uncaught exception; `.ok none` is the
`return None` for an empty window. -/
def summarize_period (env : Env) (hourly_data : Json) (lo hi : ℕ) :
    Except PyError (Option String) :=
  match pyIter? hourly_data with
  | .error e => .error e
  | .ok entries =>
    match collectObs env lo hi entries with
    | .error e => .error e
    | .ok obs =>
      if obs.isEmpty then .ok none
      else
        match pySum? (obs.map (·.1)), pySum? (obs.map (·.2.1)), pySum? (obs.map (·.2.2)) with
        | some st, some sp, some sc =>
          let n : ℚ := (obs.length : ℚ)
          .ok (some (periodLine (pyRound (st / n)) (pyRound (sp / n))
                      (cloudDesc (pyRound (sc / n)))))
        | _, _, _ => .error .typeError

/-- `hours = data.get("timelines", {}).get("hourly", [])` guarded by
`except (KeyError, TypeError)`. `dict.get` raises neither exception, and on a
non-dict the attribute lookup `.get` raises `AttributeError`, which the
`except` clause does not name — so the guard catches nothing and non-dict
shapes crash. -/
def getHours (data : Json) : Except PyError Json :=
  match data with
  | .obj kvs =>
    match (jsonGet? kvs "timelines").getD (.obj []) with
    | .obj kvs2 => .ok ((jsonGet? kvs2 "hourly").getD (.arr []))
    | _ => .error .attributeError
  | _ => .error .attributeError

/-- `summary_parts`: each of the three period strings is appended when truthy
(a non-`None`, non-empty string). -/
def summaryParts (morning afternoon evening : Option String) : List String :=
  (match morning with
   | some m => if m = "" then [] else [s!"Morning (8am-12pm): {m}"]
   | none => []) ++
  (match afternoon with
   | some a => if a = "" then [] else [s!"Afternoon (12pm-5pm): {a}"]
   | none => []) ++
  (match evening with
   | some e => if e = "" then [] else [s!"Evening (5pm-10pm): {e}"]
   | none => [])

/-- `get_tmrw_weather_tool(location)`. `env` abstracts the local clock and
timezone, `http` the single `requests.get` call (applied to the sanitized
location that becomes the `location` query parameter). An `Except.error`
result is an exception escaping the function. -/
def get_tmrw_weather_tool (env : Env) (http : String → HttpOutcome)
    (location : String) : Except PyError ToolResult :=
  if location.length > 256 then
    .ok ⟨"error", none, location, some "Location input is too long."⟩
  else
    if sanitize_location location = "" then
      .ok ⟨"error", none, location, some "Invalid location input."⟩
    else
      match http (sanitize_location location) with
      | .exn msg => .ok ⟨"error", none, location, some msg⟩
      | .body data =>
        match getHours data with
        | .error e => .error e
        | .ok hours =>
          if ¬ jsonTruthy hours then
            .ok ⟨"error", none, location, some "No hourly weather data available."⟩
          else
            match summarize_period env hours 8 12 with
            | .error e => .error e
            | .ok morning =>
              match summarize_period env hours 12 17 with
              | .error e => .error e
              | .ok afternoon =>
                match summarize_period env hours 17 22 with
                | .error e => .error e
                | .ok evening =>
                  match summaryParts morning afternoon evening with
                  | [] =>
                    .ok ⟨"error", none, location,
                         some "No forecast data available for today."⟩
                  | parts =>
                    .ok ⟨"success",
                         some ("Today's forecast - " ++ String.intercalate ". " parts ++ "."),
                         location, none⟩

/-- An hourly entry `{"time": t, "values": {"temperature": …,
"precipitationProbability": …, "cloudCover": …}}`. -/
def mkEntry (t : String) (temp prec cloud : ℚ) : Json :=
  .obj [("time", .str t),
        ("values", .obj [("temperature", .num temp),
                         ("precipitationProbability", .num prec),
                         ("cloudCover", .num cloud)])]

/-- A concrete environment: day index 0 is today; the named timestamps parse
to today's local hours 8, 9, 13, 14, 18, 19, 12 and 7; everything else raises
`ValueError` in `fromisoformat`. -/
def envC : Env where
  parseLocal := fun s =>
    if s = "M1" then some (0, 8)
    else if s = "M2" then some (0, 9)
    else if s = "A1" then some (0, 13)
    else if s = "A2" then some (0, 14)
    else if s = "E1" then some (0, 18)
    else if s = "E2" then some (0, 19)
    else if s = "H12" then some (0, 12)
    else if s = "H7" then some (0, 7)
    else none
  today := 0

/-- The six synthetic observations of the end-to-end scenario: two per window,
temperatures 70/72, 80/84, 78/76; precipitation 15/10, 5/5, 0/0; cloud cover
40/20, 10/5, 0/0. -/
def bodyScenario : Json :=
  .obj [("timelines", .obj [("hourly", .arr
    [mkEntry "M1" 70 15 40, mkEntry "M2" 72 10 20,
     mkEntry "A1" 80 5 10, mkEntry "A2" 84 5 5,
     mkEntry "E1" 78 0 0, mkEntry "E2" 76 0 0])])]

/-- An upstream that always answers with the scenario body. -/
def httpScenario : String → HttpOutcome := fun _ => .body bodyScenario

/-- An upstream whose request always fails with a `RequestException`. -/
def httpBoom : String → HttpOutcome := fun _ => .exn "boom"

/-- A location of 300 characters, over the 256-character limit. -/
def locLong : String := String.mk (List.replicate 300 'a')

section ConcreteEvaluation

attribute [local semireducible] Rat.mul Rat.inv Rat.add Rat.sub

set_option maxRecDepth 10000

/-- C1. The claim's expected text says the Morning precipitation average of 15
and 10 renders as "13% rain chance"; the code computes `round(25 / 2)` =
`round(12.5)` = 12 under Python's round-half-to-even, so the returned forecast
differs from the claimed string (shown here: the run succeeds and its forecast
is not the claimed text). -/
theorem claim_C1_counterexample :
    get_tmrw_weather_tool envC httpScenario "New York, NY" =
      .ok ⟨"success",
           some ("Today's forecast - Morning (8am-12pm): Avg 71F, 12% rain chance, partly cloudy. " ++
                 "Afternoon (12pm-5pm): Avg 82F, 5% rain chance, sunny. " ++
                 "Evening (5pm-10pm): Avg 77F, 0% rain chance, sunny."),
           "New York, NY", none⟩ ∧
    ("Today's forecast - Morning (8am-12pm): Avg 71F, 12% rain chance, partly cloudy. " ++
     "Afternoon (12pm-5pm): Avg 82F, 5% rain chance, sunny. " ++
     "Evening (5pm-10pm): Avg 77F, 0% rain chance, sunny." : String) ≠
    ("Today's forecast - Morning (8am-12pm): Avg 71F, 13% rain chance, partly cloudy. " ++
     "Afternoon (12pm-5pm): Avg 82F, 5% rain chance, sunny. " ++
     "Evening (5pm-10pm): Avg 77F, 0% rain chance, sunny.") := by
  constructor
  · decide
  · decide

/-- C1 (amended). For the six synthetic observations of the end-to-end
scenario, `get_tmrw_weather_tool` returns a success result whose forecast text
equals exactly the claimed string with "12% rain chance" in the Morning clause
(the average 12.5 rounds half-to-even to 12). -/
theorem claim_C1_amended :
    get_tmrw_weather_tool envC httpScenario "New York, NY" =
      .ok ⟨"success",
           some ("Today's forecast - Morning (8am-12pm): Avg 71F, 12% rain chance, partly cloudy. " ++
                 "Afternoon (12pm-5pm): Avg 82F, 5% rain chance, sunny. " ++
                 "Evening (5pm-10pm): Avg 77F, 0% rain chance, sunny."),
           "New York, NY", none⟩ := by
  decide

/-- C2. A `requests.RequestException` (non-2xx, network failure, or the
JSON-decode error raised by `response.json()`) is indeed returned as data; but
for a 2xx response whose JSON body is a top-level list, `data.get("timelines",
{})` raises `AttributeError`, which `except (KeyError, TypeError)` does not
catch, so the exception escapes `get_tmrw_weather_tool` — refuting "never lets
an uncaught exception propagate". -/
theorem claim_C2_code_bug :
    get_tmrw_weather_tool envC (fun _ => .exn "500 Server Error") "New York" =
      .ok ⟨"error", none, "New York", some "500 Server Error"⟩ ∧
    get_tmrw_weather_tool envC (fun _ => .body (.arr [])) "New York" =
      .error .attributeError := by
  constructor
  · decide
  · decide

/-- C3. In `re.sub(r"[^a-zA-Z0-9\s,'-.]", "", location)` the fragment `'-.`
is a character range (U+0027–U+002E), so `(`, `)`, `*`, `+` are kept rather
than stripped, and `\s` keeps tab as well as space; only characters such as
`;` outside the accidental range are removed — refuting "removes exactly the
characters outside [A-Za-z0-9 ,'.\-]". -/
theorem claim_C3_code_bug :
    sanitize_location "()*+" = "()*+" ∧
    sanitize_location "\t" = "\t" ∧
    sanitize_location "a;b" = "ab" := by
  refine ⟨by decide, by decide, by decide⟩

/-- C4. When `timelines.hourly` is absent the pipeline does return
`No hourly weather data available.`; but when `timelines` is bound to a
non-object (here the number 3), the chained `.get` raises an uncaught
`AttributeError` instead of yielding an empty hourly list — refuting "absent,
malformed, or not a list ⇒ empty hourly list ⇒ NoHourlyData". -/
theorem claim_C4_code_bug :
    get_tmrw_weather_tool envC (fun _ => .body (.obj [("invalid", .str "structure")])) "Rome" =
      .ok ⟨"error", none, "Rome", some "No hourly weather data available."⟩ ∧
    get_tmrw_weather_tool envC (fun _ => .body (.obj [("timelines", .num 3)])) "Rome" =
      .error .attributeError := by
  constructor
  · decide
  · decide

/-- C5. A whitespace-only location is NOT rejected: `\s` is inside the keep
set of the sanitization regex and no trimming happens, so `" "` survives
sanitization and the pipeline proceeds to the HTTP call, returning the
upstream failure ("boom") rather than the invalid-input error. -/
theorem claim_C5_counterexample :
    get_tmrw_weather_tool envC httpBoom " " =
      .ok ⟨"error", none, " ", some "boom"⟩ ∧
    get_tmrw_weather_tool envC httpBoom " " ≠
      .ok ⟨"error", none, " ", some "Invalid location input."⟩ := by
  constructor
  · decide
  · decide

/-- C9. An entry with an unparseable timestamp is skipped silently (the list
with the bad entry summarizes exactly like the list without it); but an
in-window entry whose `values` is a non-object (here the number 5) raises
`AttributeError` at `values.get("temperature", 0)` — outside the `try` — and
aborts the whole summarization, refuting "non-object values are skipped
silently". -/
theorem claim_C9_code_bug :
    summarize_period envC (.arr [mkEntry "BAD" 1 2 3, mkEntry "M1" 70 15 40]) 8 12 =
      summarize_period envC (.arr [mkEntry "M1" 70 15 40]) 8 12 ∧
    summarize_period envC
        (.arr [mkEntry "M1" 70 15 40,
               .obj [("time", .str "M2"), ("values", .num 5)]]) 8 12 =
      .error .attributeError := by
  constructor
  · decide
  · decide

/-- C5 (amended). The code rejects, without consulting the upstream at all
(the result is the same for every `http`), every location longer than 256
characters ("Location input is too long.") and every location whose sanitized
form is empty ("Invalid location input."), the empty string in particular; a
whitespace-only location is NOT empty after sanitization (the regex keeps
`\s` and nothing is trimmed), so it is not rejected. -/
theorem claim_C5_amended (env : Env) (http : String → HttpOutcome) (loc : String) :
    get_tmrw_weather_tool env http "" =
      .ok ⟨"error", none, "", some "Invalid location input."⟩ ∧
    (loc.length > 256 →
      get_tmrw_weather_tool env http loc =
        .ok ⟨"error", none, loc, some "Location input is too long."⟩) ∧
    (loc.length ≤ 256 → sanitize_location loc = "" →
      get_tmrw_weather_tool env http loc =
        .ok ⟨"error", none, loc, some "Invalid location input."⟩) := by
  refine ⟨rfl, ?_, ?_⟩
  · intro h
    unfold get_tmrw_weather_tool
    rw [if_pos h]
  · intro h1 h2
    unfold get_tmrw_weather_tool
    rw [if_neg (by omega), if_pos h2]

/-- C5 (amended) at concrete inputs: the empty string, a 300-character
location, and a location that sanitizes to empty. -/
theorem claim_C5_amended_witness :
    get_tmrw_weather_tool envC httpBoom "" =
      .ok ⟨"error", none, "", some "Invalid location input."⟩ ∧
    get_tmrw_weather_tool envC httpBoom locLong =
      .ok ⟨"error", none, locLong, some "Location input is too long."⟩ ∧
    get_tmrw_weather_tool envC httpBoom ";" =
      .ok ⟨"error", none, ";", some "Invalid location input."⟩ :=
  ⟨(claim_C5_amended envC httpBoom ";").1,
   (claim_C5_amended envC httpBoom locLong).2.1 (by decide),
   (claim_C5_amended envC httpBoom ";").2.2 (by decide) (by decide)⟩

lemma pyRound_zero : pyRound 0 = 0 := by decide

lemma pySum_replicate_zero (n : ℕ) :
    pySum? (List.replicate n (Json.num 0)) = some 0 := by
  induction n with
  | zero => rfl
  | succ n ih => simp [pySum?, asPyNumber, List.replicate, ih]

lemma pySum_map_self (cs : List ℚ) :
    pySum? (cs.map fun c => Json.num c) = some cs.sum := by
  induction cs with
  | nil => rfl
  | cons c rest ih => simp [pySum?, asPyNumber, ih]

/-- The accumulation loop over entries that all share one in-window,
today-dated timestamp and carry full numeric values. -/
lemma collectObs_map_mkEntry (env : Env) (ts : String) (lo hi hr : ℕ)
    (hp : env.parseLocal ts = some (env.today, hr)) (hin : inRange lo hi hr = true)
    (tv pv : ℚ) (cs : List ℚ) :
    collectObs env lo hi (cs.map fun c => mkEntry ts tv pv c) =
      .ok (cs.map fun c => (Json.num tv, Json.num pv, Json.num c)) := by
  induction cs with
  | nil => rfl
  | cons c rest ih =>
    simp only [mkEntry] at ih
    simp [collectObs, entryLocalTime?, mkEntry, jsonGet?, hp, hin, ih]

/-- C6. Window membership is by half-open local-hour ranges: a today
observation at local hour 12 contributes to Afternoon `[12,17)` and not to
Morning `[8,12)`, and a today observation at local hour 7 (e.g. 7:59, whose
`.hour` is 7) contributes to none of the three windows. -/
theorem claim_C6_window_boundaries (env : Env) (ts12 ts7 : String) (t p c : ℚ)
    (h12 : env.parseLocal ts12 = some (env.today, 12))
    (h7 : env.parseLocal ts7 = some (env.today, 7)) :
    summarize_period env (.arr [mkEntry ts12 t p c]) 8 12 = .ok none ∧
    summarize_period env (.arr [mkEntry ts12 t p c]) 12 17 =
      .ok (some (periodLine (pyRound t) (pyRound p) (cloudDesc (pyRound c)))) ∧
    summarize_period env (.arr [mkEntry ts7 t p c]) 8 12 = .ok none ∧
    summarize_period env (.arr [mkEntry ts7 t p c]) 12 17 = .ok none ∧
    summarize_period env (.arr [mkEntry ts7 t p c]) 17 22 = .ok none := by
  refine ⟨?_, ?_, ?_, ?_, ?_⟩ <;>
    simp [summarize_period, pyIter?, collectObs, entryLocalTime?, mkEntry, jsonGet?,
          h12, h7, inRange, pySum?, asPyNumber]

/-- C6 at a concrete environment and concrete observation values. -/
theorem claim_C6_witness :
    summarize_period envC (.arr [mkEntry "H12" 70 10 30]) 8 12 = .ok none ∧
    summarize_period envC (.arr [mkEntry "H12" 70 10 30]) 12 17 =
      .ok (some "Avg 70F, 10% rain chance, partly cloudy") ∧
    summarize_period envC (.arr [mkEntry "H7" 70 10 30]) 8 12 = .ok none ∧
    summarize_period envC (.arr [mkEntry "H7" 70 10 30]) 12 17 = .ok none ∧
    summarize_period envC (.arr [mkEntry "H7" 70 10 30]) 17 22 = .ok none := by
  have h := claim_C6_window_boundaries envC "H12" "H7" 70 10 30 (by decide) (by decide)
  exact ⟨h.1, h.2.1.trans (by decide), h.2.2.1, h.2.2.2.1, h.2.2.2.2⟩

/-- C7. For a window holding at least one eligible observation, the summary
string ends in `cloudDesc` of the rounded average cloud cover, and that
descriptor has inclusive lower bounds: rounded average exactly 20 gives
"partly cloudy", exactly 50 gives "cloudy", and below 20 gives "sunny". -/
theorem claim_C7_cloud_thresholds (env : Env) (ts : String)
    (hp : env.parseLocal ts = some (env.today, 9)) (cs : List ℚ) (hne : cs ≠ []) :
    summarize_period env (.arr (cs.map fun c => mkEntry ts 0 0 c)) 8 12 =
      .ok (some (periodLine 0 0 (cloudDesc (pyRound (cs.sum / (cs.length : ℚ)))))) ∧
    (pyRound (cs.sum / (cs.length : ℚ)) = 20 →
      cloudDesc (pyRound (cs.sum / (cs.length : ℚ))) = "partly cloudy") ∧
    (pyRound (cs.sum / (cs.length : ℚ)) = 50 →
      cloudDesc (pyRound (cs.sum / (cs.length : ℚ))) = "cloudy") ∧
    (pyRound (cs.sum / (cs.length : ℚ)) < 20 →
      cloudDesc (pyRound (cs.sum / (cs.length : ℚ))) = "sunny") := by
  have hcol := collectObs_map_mkEntry env ts 8 12 9 hp (by decide) 0 0 cs
  refine ⟨?_, ?_, ?_, ?_⟩
  · simp [summarize_period, pyIter?, hcol, List.map_map, Function.comp_def,
          pySum_replicate_zero, pySum_map_self, pyRound_zero, List.isEmpty_iff, hne,
          zero_div]
  · intro h
    rw [h]
    decide
  · intro h
    rw [h]
    decide
  · intro h
    rw [cloudDesc, if_pos h]

/-- C7 at a single concrete observation whose cloud cover is exactly 20. -/
theorem claim_C7_witness :
    summarize_period envC (.arr [mkEntry "M2" 0 0 20]) 8 12 =
      .ok (some "Avg 0F, 0% rain chance, partly cloudy") := by
  have h := claim_C7_cloud_thresholds envC "M2" (by decide) [20] (by simp)
  exact h.1.trans (by decide)

/-- C8. An in-window today entry whose `values` object lacks
`precipitationProbability` and `cloudCover` still counts toward the window:
its temperature enters the temperature average and it contributes 0 to the
other two averages (the denominators include it). -/
theorem claim_C8_missing_fields_default (env : Env) (ts1 ts2 : String)
    (h1 : env.parseLocal ts1 = some (env.today, 8))
    (h2 : env.parseLocal ts2 = some (env.today, 9))
    (t1 p1 c1 t2 : ℚ) :
    summarize_period env
        (.arr [mkEntry ts1 t1 p1 c1,
               .obj [("time", .str ts2),
                     ("values", .obj [("temperature", .num t2)])]]) 8 12 =
      .ok (some (periodLine (pyRound ((t1 + t2) / 2)) (pyRound ((p1 + 0) / 2))
                  (cloudDesc (pyRound ((c1 + 0) / 2))))) := by
  simp [summarize_period, pyIter?, collectObs, entryLocalTime?, jsonGet?, mkEntry,
        h1, h2, inRange, pySum?, asPyNumber]

/-- C8 at concrete inputs: the entry missing both optional fields halves the
precipitation and cloud averages and still contributes its temperature. -/
theorem claim_C8_witness :
    summarize_period envC
        (.arr [mkEntry "M1" 70 10 30,
               .obj [("time", .str "M2"),
                     ("values", .obj [("temperature", .num 72)])]]) 8 12 =
      .ok (some "Avg 71F, 5% rain chance, sunny") := by
  have h := claim_C8_missing_fields_default envC "M1" "M2" (by decide) (by decide) 70 10 30 72
  exact h.trans (by decide)

/-- C10. Every dict that `get_tmrw_weather_tool` returns — the success branch
and each error branch — carries the caller's original location string in its
`location` field; the sanitized string is passed only to the HTTP request. -/
theorem claim_C10_location_passthrough (env : Env) (http : String → HttpOutcome)
    (location : String) (r : ToolResult)
    (h : get_tmrw_weather_tool env http location = .ok r) :
    r.location = location := by
  unfold get_tmrw_weather_tool at h
  repeat' split at h
  all_goals
    first
      | (injection h with h1; subst h1; rfl)
      | exact Except.noConfusion h

/-- C10 at a concrete error-returning run. -/
theorem claim_C10_witness :
    ToolResult.location ⟨"error", none, "Paris", some "boom"⟩ = "Paris" :=
  claim_C10_location_passthrough envC httpBoom "Paris" _ (by decide)

end ConcreteEvaluation

end TomorrowIo
